import Mathlib

/-
Verification of the virtualized video carousel components of the repository:
gesture-to-index translation, virtualization window, preloading cache,
playback control, drag/settle controller, and media-identifier resolution.
Each definition is a shallow embedding of the corresponding JavaScript
function; JavaScript numbers appearing only in comparisons, additions and
min/max/% are modelled as Int, and the truncating JavaScript % operator as
Int.tmod.
-/

namespace VideoPlayerSpec

namespace OptimizedCarousel

/-- Constant DRAG_BUFFER from src/src/components/OptimizedCarousel.jsx line 9. -/
def DRAG_BUFFER : Int := 100

/-- Constant VELOCITY_THRESHOLD from src/src/components/OptimizedCarousel.jsx line 10. -/
def VELOCITY_THRESHOLD : Int := 200

/-- Constant RENDER_WINDOW from src/src/components/OptimizedCarousel.jsx line 14. -/
def RENDER_WINDOW : Int := 2

/-- Constant PRELOAD_AHEAD from src/src/components/OptimizedCarousel.jsx line 15. -/
def PRELOAD_AHEAD : Int := 3

/-- Embedding of getNextIndex from src/src/components/OptimizedCarousel.jsx
lines 223-238: computes the next carousel index from the drag offset and
release velocity.  The JavaScript guard if (!length) is the test length = 0
since length is an array length. -/
def getNextIndex (currentIndex offset velocity length : Int) : Int :=
  if length = 0 then currentIndex
  else if offset < -DRAG_BUFFER ∨ velocity < -VELOCITY_THRESHOLD then
    min (currentIndex + 1) (length - 1)
  else if offset > DRAG_BUFFER ∨ velocity > VELOCITY_THRESHOLD then
    max (currentIndex - 1) 0
  else currentIndex

/-- Embedding of visibleIndices from src/src/components/OptimizedCarousel.jsx
lines 256-265: the set of indices currentIndex + i for i from -RENDER_WINDOW
to RENDER_WINDOW that lie inside [0, itemsLength). -/
def visibleIndices (currentIndex itemsLength : Int) : Finset Int :=
  ((Finset.Icc (-RENDER_WINDOW) RENDER_WINDOW).image (fun i => currentIndex + i)).filter
    (fun idx => 0 ≤ idx ∧ idx < itemsLength)

/-- One entry of the VideoPreloader cache from
src/src/components/OptimizedCarousel.jsx lines 18-93: the Map value holds
the hidden video element (irrelevant to the cache discipline and omitted)
and the timestamp recorded at insertion time (Date.now()). -/
structure CacheEntry where
  url : String
  timestamp : Nat
deriving DecidableEq

/-- The VideoPreloader state: cache entries in Map insertion order, the
loadingPromises map as url/promise-id pairs in insertion order, and the
maxCacheSize bound fixed at construction. -/
structure PreloaderState where
  cache : List CacheEntry
  loading : List (String × Nat)
  maxCacheSize : Nat
deriving DecidableEq

/-- Smallest timestamp among the cache entries; the JavaScript cleanup
obtains it by sorting the entries ascending by timestamp and taking the
front. -/
def minTimestamp : List CacheEntry → Nat
  | [] => 0
  | [e] => e.timestamp
  | e :: f :: rest => min e.timestamp (minTimestamp (f :: rest))

/-- Removes the first entry carrying the given timestamp, mirroring one
shift() from the stably sorted entry array of cleanup (ties are broken by
insertion order, which a stable sort preserves). -/
def removeFirstWith (t : Nat) : List CacheEntry → List CacheEntry
  | [] => []
  | e :: rest => if e.timestamp = t then rest else e :: removeFirstWith t rest

/-- One eviction step of VideoPreloader.cleanup: delete the entry with the
oldest timestamp. -/
def removeOldest (l : List CacheEntry) : List CacheEntry :=
  removeFirstWith (minTimestamp l) l

/-- The while loop of VideoPreloader.cleanup (lines 76-81), with explicit
fuel: while the cache size exceeds maxCacheSize, evict the oldest entry. -/
def cleanupLoop : Nat → Nat → List CacheEntry → List CacheEntry
  | 0, _, l => l
  | fuel + 1, maxSize, l =>
    if maxSize < l.length then cleanupLoop fuel maxSize (removeOldest l) else l

/-- Embedding of VideoPreloader.cleanup from
src/src/components/OptimizedCarousel.jsx lines 71-83.  The list length is
enough fuel since every loop iteration removes one entry. -/
def cleanup (maxSize : Nat) (l : List CacheEntry) : List CacheEntry :=
  cleanupLoop l.length maxSize l

/-- JavaScript Map.set semantics on the cache: replace in place when the
key is present, append otherwise. -/
def mapSet (l : List CacheEntry) (url : String) (ts : Nat) : List CacheEntry :=
  if l.any (fun e => e.url == url) then
    l.map (fun e => if e.url == url then ⟨url, ts⟩ else e)
  else l ++ [⟨url, ts⟩]

/-- Observable result of one preload(url) call from
src/src/components/OptimizedCarousel.jsx lines 25-65: the already-cached
fast path returns loadingPromises.get(url) when a load is in flight (the
shared promise) and an already-resolved promise otherwise; a fresh call
registers a new promise and starts a load. -/
inductive PreloadResult
  | shared (pid : Nat)
  | resolvedNow
  | started (pid : Nat)
deriving DecidableEq

/-- The synchronous part of VideoPreloader.preload (lines 25-65): the guard
on lines 26-28 and the registration of the new loading promise on line 60.
Promise identity is modelled by a numeric id. -/
def preloadCall (s : PreloaderState) (url : String) (newPid : Nat) :
    PreloaderState × PreloadResult :=
  if s.cache.any (fun e => e.url == url) || (s.loading.lookup url).isSome then
    match s.loading.lookup url with
    | some pid => (s, .shared pid)
    | none => (s, .resolvedNow)
  else
    ({ s with loading := s.loading ++ [(url, newPid)] }, .started newPid)

/-- Embedding of VideoPreloader.isLoaded from lines 67-69. -/
def isLoaded (s : PreloaderState) (url : String) : Bool :=
  s.cache.any (fun e => e.url == url)

/-- Asynchronous events in the life of the preloader: a preload call, the
canplaythrough handler (lines 36-41), the error handler (lines 43-46), and
the 5-second timeout fallback firing while the promise is still registered
(lines 52-57). -/
inductive PreloadEvent
  | call (url : String) (pid : Nat)
  | canPlay (url : String) (ts : Nat)
  | errorFired (url : String)
  | timeoutFired (url : String)

/-- Effect of one preloader event on the cache and loading maps, from the
handlers of VideoPreloader.preload: canplaythrough inserts the cache entry,
deletes the loading promise and runs cleanup; error and timeout only delete
the loading promise and never touch the cache. -/
def preloadStep (s : PreloaderState) : PreloadEvent → PreloaderState
  | .call url pid => (preloadCall s url pid).1
  | .canPlay url ts =>
      { s with cache := cleanup s.maxCacheSize (mapSet s.cache url ts),
               loading := s.loading.filter (fun p => p.1 != url) }
  | .errorFired url => { s with loading := s.loading.filter (fun p => p.1 != url) }
  | .timeoutFired url => { s with loading := s.loading.filter (fun p => p.1 != url) }

/-- The preloader as constructed (empty maps, fixed capacity). -/
def initPreloader (maxCacheSize : Nat) : PreloaderState :=
  { cache := [], loading := [], maxCacheSize := maxCacheSize }

/-- The preloader state after a sequence of events, starting from the
freshly constructed preloader. -/
def runPreloader (maxCacheSize : Nat) (events : List PreloadEvent) : PreloaderState :=
  events.foldl preloadStep (initPreloader maxCacheSize)

/-- Resolution status of one preload promise: resolved becomes true when a
handler calls resolve(); inFlight tracks membership of the url in
loadingPromises. -/
structure LoadFlight where
  resolved : Bool
  inFlight : Bool
deriving DecidableEq

/-- A load right after video.load() is issued: promise pending, url
registered in loadingPromises. -/
def startFlight : LoadFlight := { resolved := false, inFlight := true }

/-- The three events that can complete a load: the canplaythrough signal,
the error signal, and the 5-second timeout (which always fires). -/
inductive FlightEvent
  | canPlayThrough
  | errorEvent
  | timeoutFires
deriving DecidableEq

/-- Promise-resolution effect of each handler in VideoPreloader.preload:
canplaythrough and error resolve unconditionally; the timeout callback
resolves only if the url is still registered (line 53), otherwise it is a
no-op. -/
def flightStep (f : LoadFlight) : FlightEvent → LoadFlight
  | .canPlayThrough => { resolved := true, inFlight := false }
  | .errorEvent => { resolved := true, inFlight := false }
  | .timeoutFires => if f.inFlight then { resolved := true, inFlight := false } else f

/-- Shared-map view of promise resolution in VideoPreloader: loadingPromises
is keyed by url and shared by every load generation of that url, while each
started load owns its own promise (a numeric id here), its own pair of
once-listeners, and its own uncancelled 5-second setTimeout.  resolvedIds
collects the promise ids whose resolve() has been called. -/
structure PromiseState where
  loading : List (String × Nat)
  resolvedIds : List Nat
deriving DecidableEq

/-- Events acting on the shared promise state: startLoad registers the new
promise for the url (line 60); canPlayFor and errorFor are load pid's own
handlers, which delete the url key — whichever generation registered it —
and resolve their promise unconditionally (lines 36-46); timeoutFor is load
pid's 5-second timeout, which checks loadingPromises.has(url) on the shared
map, deletes the url key and resolves its own promise only when the check
passes (lines 52-57); clearAll is VideoPreloader.clear() (lines 85-92),
which empties loadingPromises without resolving anything.  No timeout is
ever cancelled with clearTimeout. -/
inductive PromiseEvent
  | startLoad (url : String) (pid : Nat)
  | canPlayFor (url : String) (pid : Nat)
  | errorFor (url : String) (pid : Nat)
  | timeoutFor (url : String) (pid : Nat)
  | clearAll

/-- Effect of each promise event, transcribed from the handlers of
VideoPreloader.preload and from clear(). -/
def promiseStep (s : PromiseState) : PromiseEvent → PromiseState
  | .startLoad url pid => { s with loading := s.loading ++ [(url, pid)] }
  | .canPlayFor url pid =>
      { loading := s.loading.filter (fun p => p.1 != url),
        resolvedIds := s.resolvedIds ++ [pid] }
  | .errorFor url pid =>
      { loading := s.loading.filter (fun p => p.1 != url),
        resolvedIds := s.resolvedIds ++ [pid] }
  | .timeoutFor url pid =>
      if (s.loading.lookup url).isSome then
        { loading := s.loading.filter (fun p => p.1 != url),
          resolvedIds := s.resolvedIds ++ [pid] }
      else s
  | .clearAll => { s with loading := [] }

/-- The shared promise state before any load: empty loadingPromises,
nothing resolved. -/
def initPromises : PromiseState := { loading := [], resolvedIds := [] }

/-- The shared promise state after a sequence of events. -/
def runPromises (events : List PromiseEvent) : PromiseState :=
  events.foldl promiseStep initPromises

/-- Concrete event trace used to exercise the eviction policy: nine
distinct urls are preloaded and resolve at increasing timestamps against
the singleton's capacity of 8 (line 96), so the ninth insertion forces one
eviction. -/
def evictionTrace : List PreloadEvent :=
  [.call "a" 0, .canPlay "a" 0, .call "b" 1, .canPlay "b" 1,
   .call "c" 2, .canPlay "c" 2, .call "d" 3, .canPlay "d" 3,
   .call "e" 4, .canPlay "e" 4, .call "f" 5, .canPlay "f" 5,
   .call "g" 6, .canPlay "g" 6, .call "h" 7, .canPlay "h" 7,
   .call "i" 8, .canPlay "i" 8]

/-- The playback-relevant MediaPlayer props of VideoItem from
src/src/components/OptimizedCarousel.jsx lines 186-194: paused, muted and
autoPlay are all derived from whether the item is the active one. -/
structure MediaPlayerProps where
  paused : Bool
  muted : Bool
  autoPlay : Bool
deriving DecidableEq

/-- Embedding of the prop computation on lines 189-191:
paused = not isActive, autoPlay = isActive, muted = not isActive. -/
def mediaPlayerProps (isActive : Bool) : MediaPlayerProps :=
  { paused := !isActive, muted := !isActive, autoPlay := isActive }

/-- Drag-relevant state of OptimizedCarousel: the committed currentIndex,
the isDragging ref, and the index-commit continuation registered on the
settle animation (the then() callback of animate on lines 336-340),
modelled as the pending target index. -/
structure ControllerState where
  currentIndex : Int
  isDragging : Bool
  pendingTarget : Option Int
deriving DecidableEq

/-- The discrete gesture events handled by the controller: handleDragStart
(lines 323-325), handleDragEnd (lines 327-343), and the completion of the
settle animation, which runs the then() continuation. -/
inductive DragEvent
  | dragStart
  | dragEnd (offset velocity : Int)
  | settleComplete
deriving DecidableEq

/-- Effect of each gesture event, transcribed from the handlers:
handleDragStart sets the dragging flag; handleDragEnd clears the dragging
flag on entry (line 329), computes the next index and starts the settle
animation carrying it; settle completion commits the pending index
(setCurrentIndex is skipped when the index is unchanged, which has the same
resulting state). -/
def controllerStep (itemsLength : Int) (s : ControllerState) : DragEvent → ControllerState
  | .dragStart => { s with isDragging := true }
  | .dragEnd offset velocity =>
      { s with isDragging := false,
               pendingTarget :=
                 some (getNextIndex s.currentIndex offset velocity itemsLength) }
  | .settleComplete =>
      match s.pendingTarget with
      | some n => { currentIndex := n, isDragging := s.isDragging, pendingTarget := none }
      | none => s

/-- State of the OptimizedCarousel feed render: currentIndex plus the
loadedVideos set (initialised to new Set([0]) on line 245). -/
structure FeedState where
  currentIndex : Int
  loadedVideos : Finset Int
deriving DecidableEq

/-- The indicesToPreload of the preload effect (lines 270-284): the next
PRELOAD_AHEAD indices below itemsLength plus the previous index when
nonnegative.  Feed entries are assumed non-empty strings, making the
items[idx] truthiness checks of the source always pass. -/
def preloadIndices (currentIndex itemsLength : Int) : Finset Int :=
  (((Finset.Icc (1 : Int) PRELOAD_AHEAD).image (fun i => currentIndex + i)).filter
    (fun idx => idx < itemsLength)) ∪
  (if 0 ≤ currentIndex - 1 then {currentIndex - 1} else ∅)

/-- Asynchronous events of the feed: an index commit from a settled
gesture, the resolution of the preload effect that was started when
captured was the current index (its setLoadedVideos on lines 297-302 runs
only after all awaited preloads finish), and a video's onReady callback
(handleVideoReady, lines 345-351). -/
inductive FeedEvent
  | commit (offset velocity : Int)
  | effectResolve (captured : Int)
  | videoReady (i : Int)

/-- Effect of each feed event: a commit moves currentIndex through
getNextIndex; the preload effect adds its captured indicesToPreload plus
the captured index itself to loadedVideos; onReady adds one index.
loadedVideos is only ever added to. -/
def feedStep (itemsLength : Int) (s : FeedState) : FeedEvent → FeedState
  | .commit o v =>
      { s with currentIndex := getNextIndex s.currentIndex o v itemsLength }
  | .effectResolve captured =>
      { s with loadedVideos :=
          (s.loadedVideos ∪ preloadIndices captured itemsLength) ∪ {captured} }
  | .videoReady i => { s with loadedVideos := s.loadedVideos ∪ {i} }

/-- The set of indices rendered with a real player, from the render
expression isVisible || isPreloaded on line 389: an item mounts a
MediaPlayer iff it is in the virtualization window or in loadedVideos. -/
def renderedWithPlayer (itemsLength : Int) (s : FeedState) : Finset Int :=
  visibleIndices s.currentIndex itemsLength ∪ s.loadedVideos

/-- Initial feed state: index 0 and loadedVideos = new Set([0]). -/
def initFeed : FeedState := { currentIndex := 0, loadedVideos := {0} }

/-- The feed state after a sequence of events from the initial state. -/
def runFeed (itemsLength : Int) (events : List FeedEvent) : FeedState :=
  events.foldl (feedStep itemsLength) initFeed

end OptimizedCarousel

namespace YouTubeShortsCarousel

/-- Constant DRAG_BUFFER from src/src/components/YouTubeShortsCarousel.jsx line 5. -/
def DRAG_BUFFER : Int := 80

/-- Constant VELOCITY_THRESHOLD from src/src/components/YouTubeShortsCarousel.jsx line 6. -/
def VELOCITY_THRESHOLD : Int := 200

/-- Embedding of getNextIndex from src/src/components/YouTubeShortsCarousel.jsx
lines 359-374 (identical in shape to the OptimizedCarousel one, with the
threshold constants of that file: offset threshold 80, velocity threshold 200). -/
def getNextIndex (currentIndex offset velocity length : Int) : Int :=
  if length = 0 then currentIndex
  else if offset < -DRAG_BUFFER ∨ velocity < -VELOCITY_THRESHOLD then
    min (currentIndex + 1) (length - 1)
  else if offset > DRAG_BUFFER ∨ velocity > VELOCITY_THRESHOLD then
    max (currentIndex - 1) 0
  else currentIndex

/-- The playing/muted intent a ready player ends up with after the
playback-control effect runs. -/
structure PlaybackIntent where
  playing : Bool
  muted : Bool
deriving DecidableEq

/-- Embedding of the playback-control effect of YouTubePlayer from
src/src/components/YouTubeShortsCarousel.jsx lines 263-281: when the item
is active it plays (muted per the global isMuted flag); when inactive it is
paused and muted. -/
def playbackControl (isActive isMuted : Bool) : PlaybackIntent :=
  if isActive then { playing := true, muted := isMuted }
  else { playing := false, muted := true }

/-- Whether the item at index i is playing once the feed has synchronised:
its player must be ready (players in facade/loading/error states are not
started) and the playback-control effect, driven by isActive =
(index === currentIndex) from line 478, must have chosen play. -/
def itemPlaying (currentIndex : Int) (isMuted : Bool) (ready : Int → Bool) (i : Int) : Bool :=
  ready i && (playbackControl (i == currentIndex) isMuted).playing

/-- The character class a-z A-Z 0-9 _ - of the video-id regexes in
extractYouTubeId (src/src/components/YouTubeShortsCarousel.jsx lines
12-27); Char.isAlpha and Char.isDigit test exactly the ASCII ranges. -/
def isIdChar (c : Char) : Bool := c.isAlpha || c.isDigit || c == '_' || c == '-'

/-- The regex fragment of an eleven-character video id: the match position
must be followed by at least 11 id characters, which form the captured
group. -/
def takeId11 (s : List Char) : Option (List Char) :=
  if (s.take 11).length = 11 && (s.take 11).all isIdChar then some (s.take 11) else none

/-- Literal-prefix test used to anchor a regex literal at a scan
position. -/
def startsWith : List Char → List Char → Bool
  | [], _ => true
  | _ :: _, [] => false
  | p :: ps, c :: cs => p == c && startsWith ps cs

/-- The regex alternation (watch?v=|shorts/|embed/) followed by the id
capture.  The alternatives begin with pairwise distinct characters, so at
most one can match at a given position and committing to the first match
is exact. -/
def matchAlts : List (List Char) → List Char → Option (List Char)
  | [], _ => none
  | a :: rest, s => if startsWith a s then takeId11 (s.drop a.length) else matchAlts rest s

/-- Unanchored regex search, as String.prototype.match performs it: try
the literal prefix followed by one alternative and the 11-character capture
at each position from the left, returning the first captured group. -/
def scanRegex (pre : List Char) (alts : List (List Char)) : List Char → Option (List Char)
  | [] => none
  | c :: rest =>
    match (if startsWith pre (c :: rest)
           then matchAlts alts ((c :: rest).drop pre.length) else none) with
    | some r => some r
    | none => scanRegex pre alts rest

/-- Embedding of extractYouTubeId from
src/src/components/YouTubeShortsCarousel.jsx lines 12-27: the falsy-input
guard, the youtu.be short-link regex, the
youtube.com/(watch?v=|shorts/|embed/) regex, and the bare 11-character
token test, in source order. -/
def extractYouTubeId (url : String) : Option String :=
  if url = "" then none
  else
    match scanRegex ("youtu.be/".data) [[]] url.data with
    | some v => some (String.mk v)
    | none =>
      match scanRegex ("youtube.com/".data)
          ["watch?v=".data, "shorts/".data, "embed/".data] url.data with
      | some v => some (String.mk v)
      | none =>
        if url.data.length = 11 && url.data.all isIdChar then some url else none

/-- Embedding of videoIds from src/src/components/YouTubeShortsCarousel.jsx
lines 391-393: items.map(extractYouTubeId).filter(Boolean) — the resolved
ids (11 characters, hence never the falsy empty string) of the raw feed,
with unresolved entries dropped. -/
def videoIds (items : List String) : List String :=
  (items.map extractYouTubeId).filterMap (fun x => x)

end YouTubeShortsCarousel

namespace Carousel

/-- Constant DRAG_BUFFER from src/unnamed/part_002 line 15. -/
def DRAG_BUFFER : Int := 100

/-- Constant VELOCITY_THRESHOLD from src/unnamed/part_002 line 16. -/
def VELOCITY_THRESHOLD : Int := 300

/-- Embedding of getNextIndex from src/unnamed/part_002 lines 21-40: the
wrap-aware variant.  When loop is true the new index is computed with the
JavaScript % operator (truncating remainder, Int.tmod) on an argument that
is first shifted into the positive range by adding length. -/
def getNextIndex (currentIndex offset velocity length : Int) (loop : Bool) : Int :=
  if length = 0 then currentIndex
  else if offset < -DRAG_BUFFER ∨ velocity < -VELOCITY_THRESHOLD then
    if loop then Int.tmod (currentIndex + 1 + length) length
    else min (currentIndex + 1) (length - 1)
  else if offset > DRAG_BUFFER ∨ velocity > VELOCITY_THRESHOLD then
    if loop then Int.tmod (currentIndex - 1 + length) length
    else max (currentIndex - 1) 0
  else currentIndex

/-- Embedding of getAutoPlayIndex from src/unnamed/part_002 lines 43-49. -/
def getAutoPlayIndex (currentIndex length : Int) (loop : Bool) : Int :=
  if length = 0 then currentIndex
  else if loop then Int.tmod (currentIndex + 1) length
  else min (currentIndex + 1) (length - 1)

end Carousel

/-! Claim C1: behaviour of the gesture-to-index translator. -/

/-- C1 counterexample: the claim states that for every current index in
[0, N) the translator advances exactly one position forward whenever
dragOffset is below -OFFSET_THRESHOLD, but at the last index (current = 4,
N = 5, threshold 80) a qualifying swipe (offset -100) leaves the index at 4
instead of advancing it to 5: the forward step clamps at N - 1. -/
theorem C1_getNextIndex_counterexample :
    ¬ (YouTubeShortsCarousel.getNextIndex 4 (-100) 0 5 = 4 + 1) := by decide

/-- C1 (amended): for every current index in [0, N), the translator advances
exactly one position forward when dragOffset < -OFFSET_THRESHOLD or
releaseVelocity < -VELOCITY_THRESHOLD, except at index N - 1 where it stays
put; otherwise it retreats exactly one position backward when
dragOffset > OFFSET_THRESHOLD or releaseVelocity > VELOCITY_THRESHOLD,
except at index 0 where it stays put; and otherwise it returns the current
index unchanged.  Either the offset or the velocity condition alone
suffices.  This holds both for the threshold-80/200 translator of
YouTubeShortsCarousel.jsx and the threshold-100/200 one of
OptimizedCarousel.jsx; with threshold 80, getNextIndex(0, -100, 0, 5) = 1,
offset -81 alone or velocity -201 alone also advance, and inputs below both
thresholds leave the index unchanged. -/
theorem C1_getNextIndex_amended :
    (∀ c o v N : Int, 0 ≤ c → c < N →
      ((o < -YouTubeShortsCarousel.DRAG_BUFFER ∨
          v < -YouTubeShortsCarousel.VELOCITY_THRESHOLD) →
        (c < N - 1 → YouTubeShortsCarousel.getNextIndex c o v N = c + 1) ∧
        (c = N - 1 → YouTubeShortsCarousel.getNextIndex c o v N = c)) ∧
      (¬ (o < -YouTubeShortsCarousel.DRAG_BUFFER ∨
            v < -YouTubeShortsCarousel.VELOCITY_THRESHOLD) →
        (o > YouTubeShortsCarousel.DRAG_BUFFER ∨
            v > YouTubeShortsCarousel.VELOCITY_THRESHOLD) →
        (0 < c → YouTubeShortsCarousel.getNextIndex c o v N = c - 1) ∧
        (c = 0 → YouTubeShortsCarousel.getNextIndex c o v N = c)) ∧
      (¬ (o < -YouTubeShortsCarousel.DRAG_BUFFER ∨
            v < -YouTubeShortsCarousel.VELOCITY_THRESHOLD) →
        ¬ (o > YouTubeShortsCarousel.DRAG_BUFFER ∨
            v > YouTubeShortsCarousel.VELOCITY_THRESHOLD) →
        YouTubeShortsCarousel.getNextIndex c o v N = c))
    ∧ (∀ c o v N : Int, 0 ≤ c → c < N →
      ((o < -OptimizedCarousel.DRAG_BUFFER ∨
          v < -OptimizedCarousel.VELOCITY_THRESHOLD) →
        (c < N - 1 → OptimizedCarousel.getNextIndex c o v N = c + 1) ∧
        (c = N - 1 → OptimizedCarousel.getNextIndex c o v N = c)) ∧
      (¬ (o < -OptimizedCarousel.DRAG_BUFFER ∨
            v < -OptimizedCarousel.VELOCITY_THRESHOLD) →
        (o > OptimizedCarousel.DRAG_BUFFER ∨
            v > OptimizedCarousel.VELOCITY_THRESHOLD) →
        (0 < c → OptimizedCarousel.getNextIndex c o v N = c - 1) ∧
        (c = 0 → OptimizedCarousel.getNextIndex c o v N = c)) ∧
      (¬ (o < -OptimizedCarousel.DRAG_BUFFER ∨
            v < -OptimizedCarousel.VELOCITY_THRESHOLD) →
        ¬ (o > OptimizedCarousel.DRAG_BUFFER ∨
            v > OptimizedCarousel.VELOCITY_THRESHOLD) →
        OptimizedCarousel.getNextIndex c o v N = c))
    ∧ YouTubeShortsCarousel.getNextIndex 0 (-100) 0 5 = 1
    ∧ YouTubeShortsCarousel.getNextIndex 0 (-81) 0 5 = 1
    ∧ YouTubeShortsCarousel.getNextIndex 0 0 (-201) 5 = 1
    ∧ YouTubeShortsCarousel.getNextIndex 2 10 10 5 = 2 := by
  refine ⟨?_, ?_, by decide, by decide, by decide, by decide⟩
  · intro c o v N hc hcN
    have hN0 : ¬ (N = 0) := by omega
    unfold YouTubeShortsCarousel.getNextIndex
    rw [if_neg hN0]
    refine ⟨fun h1 => ?_, fun h1 h2 => ?_, fun h1 h2 => ?_⟩
    · rw [if_pos h1]
      exact ⟨fun _ => by omega, fun _ => by omega⟩
    · rw [if_neg h1, if_pos h2]
      exact ⟨fun _ => by omega, fun _ => by omega⟩
    · rw [if_neg h1, if_neg h2]
  · intro c o v N hc hcN
    have hN0 : ¬ (N = 0) := by omega
    unfold OptimizedCarousel.getNextIndex
    rw [if_neg hN0]
    refine ⟨fun h1 => ?_, fun h1 h2 => ?_, fun h1 h2 => ?_⟩
    · rw [if_pos h1]
      exact ⟨fun _ => by omega, fun _ => by omega⟩
    · rw [if_neg h1, if_pos h2]
      exact ⟨fun _ => by omega, fun _ => by omega⟩
    · rw [if_neg h1, if_neg h2]

/-- C1 witness: the amended theorem applied at the concrete input
c = 1, o = -90, v = 0, N = 5 for the threshold-80 translator: the swipe-up
condition holds and the index advances from 1 to 2. -/
theorem C1_getNextIndex_witness :
    YouTubeShortsCarousel.getNextIndex 1 (-90) 0 5 = 1 + 1 :=
  ((C1_getNextIndex_amended.1 1 (-90) 0 5 (by decide) (by decide)).1
    (by decide)).1 (by decide)

/-! Claim C2: range invariant and wrap-around of the loop-aware translator. -/

/-- C2: for every item count N ≥ 1 and current index in [0, N), the
loop-aware translator of src/unnamed/part_002 returns a value in [0, N-1]
for both wrap settings and any offset and velocity; and with wrap=true it
cycles end-to-end: nextIndex(N-1, -OFFSET_THRESHOLD-1, 0, N, true) = 0. -/
theorem C2_getNextIndex_range :
    (∀ (c o v N : Int) (loop : Bool), 1 ≤ N → 0 ≤ c → c < N →
      0 ≤ Carousel.getNextIndex c o v N loop ∧
        Carousel.getNextIndex c o v N loop ≤ N - 1)
    ∧ (∀ N : Int, 1 ≤ N →
      Carousel.getNextIndex (N - 1) (-Carousel.DRAG_BUFFER - 1) 0 N true = 0) := by
  constructor
  · intro c o v N loop hN hc hcN
    have hN0 : ¬ (N = 0) := by omega
    unfold Carousel.getNextIndex
    rw [if_neg hN0]
    split_ifs with h1 h2 h3 h4
    · rw [Int.tmod_eq_emod (by omega) (by omega)]
      have := Int.emod_nonneg (c + 1 + N) (b := N) (by omega)
      have := Int.emod_lt_of_pos (c + 1 + N) (b := N) (by omega)
      omega
    · omega
    · rw [Int.tmod_eq_emod (by omega) (by omega)]
      have := Int.emod_nonneg (c - 1 + N) (b := N) (by omega)
      have := Int.emod_lt_of_pos (c - 1 + N) (b := N) (by omega)
      omega
    · omega
    · omega
  · intro N hN
    have hN0 : ¬ (N = 0) := by omega
    unfold Carousel.getNextIndex
    rw [if_neg hN0, if_pos (by left; unfold Carousel.DRAG_BUFFER; omega),
      if_pos rfl, Int.tmod_eq_emod (by omega) (by omega)]
    have h2N : N - 1 + 1 + N = 2 * N := by ring
    rw [h2N, Int.mul_emod_left 2 N]

/-- C2 witness: the range theorem applied at the concrete input c = 2,
o = -500, v = 0, N = 3 with wrap on, and the wrap example at N = 4. -/
theorem C2_getNextIndex_witness :
    (0 ≤ Carousel.getNextIndex 2 (-500) 0 3 true ∧
      Carousel.getNextIndex 2 (-500) 0 3 true ≤ 3 - 1) ∧
    Carousel.getNextIndex (4 - 1) (-Carousel.DRAG_BUFFER - 1) 0 4 true = 0 :=
  ⟨C2_getNextIndex_range.1 2 (-500) 0 3 true (by decide) (by decide) (by decide),
    C2_getNextIndex_range.2 4 (by decide)⟩

/-! Claim C3: the virtualization window. -/

/-- C3 counterexample: the claim states the mounted set's size equals
min(N, 2*radius+1), but with radius RENDER_WINDOW = 2, N = 10 and
current = 0 the window is clipped at the left edge: it is {0, 1, 2} of size
3, not min(10, 5) = 5. -/
theorem C3_windowFor_counterexample :
    (OptimizedCarousel.visibleIndices 0 10).card = 3 ∧
    ¬ ((OptimizedCarousel.visibleIndices 0 10).card = min 10 (2 * 2 + 1)) := by
  decide

/-- C3 (amended): for every item count N and current index in [0, N), the
virtualization window calculator returns a mounted set that is exactly the
contiguous range of valid indices within [current - radius, current + radius]
intersected with [0, N-1] (radius = RENDER_WINDOW = 2), and whose size is
min(N-1, current+radius) - max(0, current-radius) + 1; this equals
min(N, 2*radius+1) only when the window is not clipped by exactly one edge. -/
theorem C3_windowFor_amended : ∀ (c N : Int), 0 ≤ c → c < N →
    OptimizedCarousel.visibleIndices c N =
      Finset.Icc (max 0 (c - OptimizedCarousel.RENDER_WINDOW))
        (min (N - 1) (c + OptimizedCarousel.RENDER_WINDOW)) ∧
    (∀ i : Int, i ∈ OptimizedCarousel.visibleIndices c N ↔
      (c - OptimizedCarousel.RENDER_WINDOW ≤ i ∧
        i ≤ c + OptimizedCarousel.RENDER_WINDOW ∧ 0 ≤ i ∧ i ≤ N - 1)) ∧
    (OptimizedCarousel.visibleIndices c N).card =
      (min (N - 1) (c + OptimizedCarousel.RENDER_WINDOW) -
        max 0 (c - OptimizedCarousel.RENDER_WINDOW) + 1).toNat := by
  intro c N hc hcN
  have hset : OptimizedCarousel.visibleIndices c N =
      Finset.Icc (max 0 (c - OptimizedCarousel.RENDER_WINDOW))
        (min (N - 1) (c + OptimizedCarousel.RENDER_WINDOW)) := by
    ext i
    simp only [OptimizedCarousel.visibleIndices, OptimizedCarousel.RENDER_WINDOW,
      Finset.mem_filter, Finset.mem_image, Finset.mem_Icc]
    constructor
    · rintro ⟨⟨j, hj, rfl⟩, h0, hN⟩
      omega
    · rintro ⟨h1, h2⟩
      exact ⟨⟨i - c, by omega, by omega⟩, by omega, by omega⟩
  refine ⟨hset, ?_, ?_⟩
  · intro i
    rw [hset, Finset.mem_Icc]
    simp only [OptimizedCarousel.RENDER_WINDOW]
    omega
  · rw [hset, Int.card_Icc]
    congr 1
    omega

/-- C3 witness: the amended theorem applied at current = 3, N = 10: the
mounted set is the contiguous range [1, 5], every index of [1, 5] is a
member, and its size is 5. -/
theorem C3_windowFor_witness :
    OptimizedCarousel.visibleIndices 3 10 =
      Finset.Icc (max 0 (3 - OptimizedCarousel.RENDER_WINDOW))
        (min (10 - 1) (3 + OptimizedCarousel.RENDER_WINDOW)) ∧
    (∀ i : Int, i ∈ OptimizedCarousel.visibleIndices 3 10 ↔
      (3 - OptimizedCarousel.RENDER_WINDOW ≤ i ∧
        i ≤ 3 + OptimizedCarousel.RENDER_WINDOW ∧ 0 ≤ i ∧ i ≤ 10 - 1)) ∧
    (OptimizedCarousel.visibleIndices 3 10).card =
      (min (10 - 1) (3 + OptimizedCarousel.RENDER_WINDOW) -
        max 0 (3 - OptimizedCarousel.RENDER_WINDOW) + 1).toNat :=
  C3_windowFor_amended 3 10 (by decide) (by decide)

/-! Helper lemmas about the preloading cache. -/

section PreloaderLemmas

open OptimizedCarousel

/-- The minimal timestamp bounds every entry's timestamp from below. -/
theorem minTimestamp_le (l : List CacheEntry) :
    ∀ e ∈ l, minTimestamp l ≤ e.timestamp := by
  induction l with
  | nil => intro e he; cases he
  | cons x rest ih =>
    intro e he
    cases rest with
    | nil =>
      rcases List.mem_cons.mp he with rfl | h
      · simp [minTimestamp]
      · cases h
    | cons y t =>
      rw [minTimestamp]
      rcases List.mem_cons.mp he with rfl | hmem
      · exact min_le_left _ _
      · exact le_trans (min_le_right _ _) (ih e hmem)

/-- A nonempty cache attains its minimal timestamp. -/
theorem minTimestamp_mem (l : List CacheEntry) (h : l ≠ []) :
    ∃ e ∈ l, e.timestamp = minTimestamp l := by
  induction l with
  | nil => exact absurd rfl h
  | cons x rest ih =>
    cases rest with
    | nil => exact ⟨x, List.mem_cons_self _ _, by simp [minTimestamp]⟩
    | cons y t =>
      rw [minTimestamp]
      rcases le_total x.timestamp (minTimestamp (y :: t)) with hle | hle
      · exact ⟨x, List.mem_cons_self _ _, by omega⟩
      · obtain ⟨e, hmem, heq⟩ := ih (by simp)
        exact ⟨e, List.mem_cons_of_mem _ hmem, by omega⟩

/-- removeFirstWith deletes exactly the first entry carrying the given
timestamp when one exists. -/
theorem removeFirstWith_split (t : Nat) (l : List CacheEntry)
    (h : ∃ e ∈ l, e.timestamp = t) :
    ∃ pre e post, l = pre ++ e :: post ∧ e.timestamp = t ∧
      removeFirstWith t l = pre ++ post := by
  induction l with
  | nil => obtain ⟨e, he, _⟩ := h; cases he
  | cons x rest ih =>
    by_cases hx : x.timestamp = t
    · exact ⟨[], x, rest, rfl, hx, by simp [removeFirstWith, hx]⟩
    · obtain ⟨e, he, het⟩ := h
      rcases List.mem_cons.mp he with rfl | hmem
      · exact absurd het hx
      · obtain ⟨pre, e', post, hsplit, het', hrm⟩ := ih ⟨e, hmem, het⟩
        exact ⟨x :: pre, e', post, by simp [hsplit], het',
          by simp [removeFirstWith, hx, hrm]⟩

/-- Every eviction step deletes one entry whose timestamp is minimal among
all cached entries. -/
theorem removeOldest_spec (l : List CacheEntry) (h : l ≠ []) :
    ∃ pre e post, l = pre ++ e :: post ∧ removeOldest l = pre ++ post ∧
      ∀ x ∈ l, e.timestamp ≤ x.timestamp := by
  obtain ⟨pre, e, post, hsplit, het, hrm⟩ :=
    removeFirstWith_split (minTimestamp l) l (minTimestamp_mem l h)
  exact ⟨pre, e, post, hsplit, hrm, fun x hx => het ▸ minTimestamp_le l x hx⟩

/-- An eviction step shrinks a nonempty cache by exactly one entry. -/
theorem removeOldest_length (l : List CacheEntry) (h : l ≠ []) :
    (removeOldest l).length + 1 = l.length := by
  obtain ⟨pre, e, post, hsplit, hrm, _⟩ := removeOldest_spec l h
  rw [hrm, hsplit]
  simp
  omega

/-- The cleanup loop enforces the capacity bound given enough fuel. -/
theorem cleanupLoop_le (fuel maxSize : Nat) :
    ∀ l : List CacheEntry, l.length ≤ maxSize + fuel →
      (cleanupLoop fuel maxSize l).length ≤ maxSize := by
  induction fuel with
  | zero => intro l hl; simpa [cleanupLoop] using hl
  | succ n ih =>
    intro l hl
    rw [cleanupLoop]
    split_ifs with h
    · have hne : l ≠ [] := by
        intro heq; rw [heq] at h; simp at h
      have := removeOldest_length l hne
      exact ih _ (by omega)
    · omega

/-- cleanup always leaves at most maxSize entries. -/
theorem cleanup_le (maxSize : Nat) (l : List CacheEntry) :
    (cleanup maxSize l).length ≤ maxSize :=
  cleanupLoop_le l.length maxSize l (by omega)

/-- No preloader event changes the capacity bound. -/
theorem preloadStep_maxCacheSize (s : PreloaderState) (e : PreloadEvent) :
    (preloadStep s e).maxCacheSize = s.maxCacheSize := by
  cases e with
  | call url pid =>
    simp only [preloadStep, preloadCall]
    split_ifs
    · split <;> rfl
    · rfl
  | canPlay url ts => rfl
  | errorFired url => rfl
  | timeoutFired url => rfl

/-- Every preloader event preserves the cache capacity invariant. -/
theorem preloadStep_cache_le (s : PreloaderState) (e : PreloadEvent)
    (h : s.cache.length ≤ s.maxCacheSize) :
    (preloadStep s e).cache.length ≤ (preloadStep s e).maxCacheSize := by
  cases e with
  | call url pid =>
    simp only [preloadStep, preloadCall]
    split_ifs
    · split <;> exact h
    · exact h
  | canPlay url ts => exact cleanup_le _ _
  | errorFired url => exact h
  | timeoutFired url => exact h

/-- The capacity invariant is preserved along any event sequence. -/
theorem foldl_preload_invariant (events : List PreloadEvent) :
    ∀ s : PreloaderState, s.cache.length ≤ s.maxCacheSize →
      (events.foldl preloadStep s).cache.length ≤ s.maxCacheSize := by
  induction events with
  | nil => intro s h; exact h
  | cons e rest ih =>
    intro s h
    have h1 := preloadStep_cache_le s e h
    have h2 := preloadStep_maxCacheSize s e
    have h3 := ih (preloadStep s e) h1
    rw [h2] at h3
    simpa [List.foldl] using h3

/-- From the freshly constructed preloader, the cache never exceeds its
capacity. -/
theorem runPreloader_cache_le (maxCacheSize : Nat) (events : List PreloadEvent) :
    (runPreloader maxCacheSize events).cache.length ≤ maxCacheSize :=
  foldl_preload_invariant events (initPreloader maxCacheSize) (by simp [initPreloader])

/-- Deleting a url from the loading map makes its lookup fail. -/
theorem lookup_filter_ne (url : String) (l : List (String × Nat)) :
    (l.filter (fun p => p.1 != url)).lookup url = none := by
  induction l with
  | nil => rfl
  | cons x rest ih =>
    obtain ⟨k, v⟩ := x
    by_cases h : k = url
    · have hb : ((k, v).1 != url) = false := by simp [h]
      simp only [List.filter, hb]
      exact ih
    · have hb : ((k, v).1 != url) = true := by simp [h]
      simp only [List.filter, hb, List.lookup]
      have hb2 : (url == k) = false := by simp [Ne.symm h]
      simp only [hb2]
      exact ih

end PreloaderLemmas

/-! Claim C4: preloading-cache capacity and eviction policy. -/

/-- C4 counterexample: the claim states the entry matching the current
active index is never evicted while another evictable entry exists.  Take a
session whose active item has url "a", preloaded first (timestamp 0), and
preload eight further urls "b".."i" (timestamps 1..8) into the capacity-8
preloader: the ninth insertion evicts "a" — the active item's entry — even
though the eight entries "b".."i" were available as victims.  The
VideoPreloader has no notion of the active index. -/
theorem C4_cache_counterexample :
    ((OptimizedCarousel.runPreloader 8 OptimizedCarousel.evictionTrace).cache.map
      (fun e => e.url)) = ["b", "c", "d", "e", "f", "g", "h", "i"] ∧
    ¬ ("a" ∈ (OptimizedCarousel.runPreloader 8
        OptimizedCarousel.evictionTrace).cache.map (fun e => e.url)) := by
  decide

/-- C4 (amended): after any sequence of preload events has resolved, the
preloading cache holds at most its fixed capacity of entries, and every
eviction removes an entry with the oldest timestamp — the least-recently
inserted, since timestamps are written once at insertion and never
refreshed.  The cache is unaware of the active index, so the active item's
entry is evicted like any other when it is the oldest. -/
theorem C4_cache_amended :
    (∀ (maxCacheSize : Nat) (events : List OptimizedCarousel.PreloadEvent),
      (OptimizedCarousel.runPreloader maxCacheSize events).cache.length ≤ maxCacheSize)
    ∧ (∀ l : List OptimizedCarousel.CacheEntry, l ≠ [] →
      ∃ pre e post, l = pre ++ e :: post ∧
        OptimizedCarousel.removeOldest l = pre ++ post ∧
        ∀ x ∈ l, e.timestamp ≤ x.timestamp) :=
  ⟨runPreloader_cache_le, removeOldest_spec⟩

/-- C4 witness: the amended theorem applied to the concrete two-entry cache
with timestamps 5 and 3: the eviction splits off the timestamp-3 entry. -/
theorem C4_cache_witness :
    ∃ pre e post,
      ([⟨"a", 5⟩, ⟨"b", 3⟩] : List OptimizedCarousel.CacheEntry) = pre ++ e :: post ∧
      OptimizedCarousel.removeOldest [⟨"a", 5⟩, ⟨"b", 3⟩] = pre ++ post ∧
      ∀ x ∈ ([⟨"a", 5⟩, ⟨"b", 3⟩] : List OptimizedCarousel.CacheEntry),
        e.timestamp ≤ x.timestamp :=
  C4_cache_amended.2 _ (by decide)

/-! Claim C7: idempotence, coalescing and resolution of preload. -/

/-- C7 counterexample: the claim states that for every key the returned
promise always resolves, so no caller is ever blocked indefinitely.  It is
refuted by the uncancelled 5-second timeouts reading the SHARED
loadingPromises map: (a) load 1 of url "u" errors before t = 5s (entry
deleted, promise 1 resolved); a second preload of "u" starts before t = 5s
as promise 2; load 1's stale timeout then fires, sees has("u") true —
load 2's entry — deletes it and re-resolves its own promise 1; load 2's own
timeout later finds has("u") false and never resolves, so if load 2's
resource hangs (no canplaythrough or error ever fires) promise 2 is pending
forever while nothing remains registered.  (b) clear() empties
loadingPromises without resolving, after which a pending load's timeout is
a no-op and its promise 1 also pends forever. -/
theorem C7_preload_counterexample :
    ¬ ((2 : Nat) ∈ (OptimizedCarousel.runPromises
      [.startLoad "u" 1, .errorFor "u" 1, .startLoad "u" 2,
       .timeoutFor "u" 1, .timeoutFor "u" 2]).resolvedIds) ∧
    (OptimizedCarousel.runPromises
      [.startLoad "u" 1, .errorFor "u" 1, .startLoad "u" 2,
       .timeoutFor "u" 1, .timeoutFor "u" 2]).loading = [] ∧
    ¬ ((1 : Nat) ∈ (OptimizedCarousel.runPromises
      [.startLoad "u" 1, .clearAll, .timeoutFor "u" 1]).resolvedIds) := by
  decide

/-- C7 (amended): preload is idempotent and coalescing — a call for a key
with a load in flight returns the stored shared promise and changes nothing
(so two overlapping calls get the same promise and no second load starts);
a call for an already-cached key with no load in flight returns an
immediately resolved promise and changes nothing.  A started load's promise
resolves whenever its own canplaythrough or error handler fires, or when
its 5-second timeout fires while the url is still registered in the shared
loadingPromises map, and a resolved promise stays resolved; but resolution
is not unconditional — clear(), or a stale same-url timeout of an earlier
load, can deregister a pending flight without resolving it, after which a
hanging resource leaves the promise pending forever. -/
theorem C7_preload_amended :
    (∀ (s : OptimizedCarousel.PreloaderState) (url : String) (pid newPid : Nat),
      s.loading.lookup url = some pid →
      OptimizedCarousel.preloadCall s url newPid = (s, .shared pid))
    ∧ (∀ (s : OptimizedCarousel.PreloaderState) (url : String) (pid1 pid2 : Nat),
      (s.loading.lookup url).isSome = true →
      (OptimizedCarousel.preloadCall s url pid1).2
          = (OptimizedCarousel.preloadCall s url pid2).2 ∧
        (OptimizedCarousel.preloadCall s url pid1).1 = s)
    ∧ (∀ (s : OptimizedCarousel.PreloaderState) (url : String) (newPid : Nat),
      OptimizedCarousel.isLoaded s url = true → s.loading.lookup url = none →
      OptimizedCarousel.preloadCall s url newPid = (s, .resolvedNow))
    ∧ (∀ (s : OptimizedCarousel.PromiseState) (url : String) (pid : Nat),
      pid ∈ (OptimizedCarousel.promiseStep s (.canPlayFor url pid)).resolvedIds ∧
      pid ∈ (OptimizedCarousel.promiseStep s (.errorFor url pid)).resolvedIds ∧
      ((s.loading.lookup url).isSome = true →
        pid ∈ (OptimizedCarousel.promiseStep s (.timeoutFor url pid)).resolvedIds))
    ∧ (∀ (s : OptimizedCarousel.PromiseState) (e : OptimizedCarousel.PromiseEvent)
        (pid : Nat), pid ∈ s.resolvedIds →
      pid ∈ (OptimizedCarousel.promiseStep s e).resolvedIds) := by
  refine ⟨?_, ?_, ?_, ?_, ?_⟩
  · intro s url pid newPid h
    simp [OptimizedCarousel.preloadCall, h]
  · intro s url pid1 pid2 h
    obtain ⟨pid, hpid⟩ := Option.isSome_iff_exists.mp h
    simp [OptimizedCarousel.preloadCall, hpid]
  · intro s url newPid hl h
    simp only [OptimizedCarousel.preloadCall, h]
    rw [if_pos (by simp only [OptimizedCarousel.isLoaded] at hl; simp [hl])]
  · intro s url pid
    refine ⟨by simp [OptimizedCarousel.promiseStep],
      by simp [OptimizedCarousel.promiseStep], fun h => ?_⟩
    simp [OptimizedCarousel.promiseStep, h]
  · intro s e pid h
    cases e with
    | startLoad url pid2 => exact h
    | canPlayFor url pid2 => simp [OptimizedCarousel.promiseStep, h]
    | errorFor url pid2 => simp [OptimizedCarousel.promiseStep, h]
    | timeoutFor url pid2 =>
      simp only [OptimizedCarousel.promiseStep]
      split_ifs <;> simp [h]
    | clearAll => exact h

/-- C7 witness: with url "u" in flight under promise 7, a second preload
call (fresh promise id 9) returns the shared promise 7 and leaves the state
unchanged; and a load whose 5-second timeout fires while its url is still
registered has its promise 7 resolved. -/
theorem C7_preload_witness :
    OptimizedCarousel.preloadCall ⟨[], [("u", 7)], 8⟩ "u" 9
        = (⟨[], [("u", 7)], 8⟩, .shared 7) ∧
    7 ∈ (OptimizedCarousel.promiseStep ⟨[("u", 7)], []⟩
        (.timeoutFor "u" 7)).resolvedIds :=
  ⟨C7_preload_amended.1 ⟨[], [("u", 7)], 8⟩ "u" 7 9 (by decide),
    (C7_preload_amended.2.2.2.1 ⟨[("u", 7)], []⟩ "u" 7).2.2 (by decide)⟩

/-! Claim C10: failed or timed-out preloads leave no cache entry. -/

/-- C10: when a load's resource errors, or its 5-second timeout fires while
the promise is still pending, the promise resolves but the cache is left
unchanged: no entry is inserted for the key, isLoaded stays as it was (in
particular false), and a subsequent preload call for the key starts a fresh
load rather than returning a cached success. -/
theorem C10_preload_failure :
    (∀ f : OptimizedCarousel.LoadFlight,
      (OptimizedCarousel.flightStep f .errorEvent).resolved = true ∧
      (f.inFlight = true →
        (OptimizedCarousel.flightStep f .timeoutFires).resolved = true))
    ∧ (∀ (s : OptimizedCarousel.PreloaderState) (url : String),
      (OptimizedCarousel.preloadStep s (.errorFired url)).cache = s.cache ∧
      (OptimizedCarousel.preloadStep s (.timeoutFired url)).cache = s.cache ∧
      OptimizedCarousel.isLoaded (OptimizedCarousel.preloadStep s (.errorFired url)) url
          = OptimizedCarousel.isLoaded s url ∧
      OptimizedCarousel.isLoaded (OptimizedCarousel.preloadStep s (.timeoutFired url)) url
          = OptimizedCarousel.isLoaded s url)
    ∧ (∀ (s : OptimizedCarousel.PreloaderState) (url : String) (pid : Nat),
      OptimizedCarousel.isLoaded s url = false →
      (OptimizedCarousel.preloadCall
          (OptimizedCarousel.preloadStep s (.errorFired url)) url pid).2
        = .started pid ∧
      (OptimizedCarousel.preloadCall
          (OptimizedCarousel.preloadStep s (.timeoutFired url)) url pid).2
        = .started pid) := by
  refine ⟨?_, ?_, ?_⟩
  · intro f
    refine ⟨rfl, fun h => ?_⟩
    simp [OptimizedCarousel.flightStep, h]
  · intro s url
    exact ⟨rfl, rfl, rfl, rfl⟩
  · intro s url pid h
    constructor
    · simp only [OptimizedCarousel.preloadStep, OptimizedCarousel.preloadCall,
        lookup_filter_ne]
      rw [if_neg (by simp only [OptimizedCarousel.isLoaded] at h; simp [h])]
    · simp only [OptimizedCarousel.preloadStep, OptimizedCarousel.preloadCall,
        lookup_filter_ne]
      rw [if_neg (by simp only [OptimizedCarousel.isLoaded] at h; simp [h])]

/-- C10 witness: with url "u" pending under promise 1 and nothing cached,
an error resolution leaves the cache empty and a repeat preload call with
promise id 2 starts a fresh load. -/
theorem C10_preload_failure_witness :
    (OptimizedCarousel.preloadCall
        (OptimizedCarousel.preloadStep ⟨[], [("u", 1)], 8⟩ (.errorFired "u")) "u" 2).2
      = .started 2 ∧
    (OptimizedCarousel.preloadCall
        (OptimizedCarousel.preloadStep ⟨[], [("u", 1)], 8⟩ (.timeoutFired "u")) "u" 2).2
      = .started 2 :=
  C10_preload_failure.2.2 ⟨[], [("u", 1)], 8⟩ "u" 2 (by decide)

/-! Helper lemmas for playback exclusivity. -/

/-- The playing flag chosen by the playback-control effect equals the
isActive flag it was given. -/
theorem playbackControl_playing (b m : Bool) :
    (YouTubeShortsCarousel.playbackControl b m).playing = b := by
  cases b <;> rfl

/-- A duplicate-free list whose members are pairwise equal has at most one
element. -/
theorem length_le_one_of_nodup_const {l : List Nat} (hnd : l.Nodup)
    (h : ∀ a ∈ l, ∀ b ∈ l, a = b) : l.length ≤ 1 := by
  match l with
  | [] => simp
  | [a] => simp
  | a :: b :: t =>
    exfalso
    have hab := h a (by simp) b (by simp)
    rw [List.nodup_cons] at hnd
    exact hnd.1 (hab ▸ List.mem_cons_self b t)

/-! Claim C5: at most one item plays at any instant. -/

/-- C5: once the playback-control effects have run for a given
currentIndex, at most one item of the whole feed is in the playing
sub-state, whatever the per-item ready flags and the mute toggle; every
item whose index differs from currentIndex is paused and muted by the
effect; and in OptimizedCarousel the declarative MediaPlayer props pause
and mute every non-active item the same way.  Since currentIndex is the
only input, this holds after every step of any sequence of index
changes. -/
theorem C5_single_playing :
    (∀ (N : Nat) (currentIndex : Int) (isMuted : Bool) (ready : Int → Bool),
      ((List.range N).filter
        (fun i => YouTubeShortsCarousel.itemPlaying currentIndex isMuted ready
          (Int.ofNat i))).length ≤ 1)
    ∧ (∀ (currentIndex i : Int) (isMuted : Bool), i ≠ currentIndex →
      (YouTubeShortsCarousel.playbackControl (i == currentIndex) isMuted).playing
          = false ∧
      (YouTubeShortsCarousel.playbackControl (i == currentIndex) isMuted).muted = true)
    ∧ (∀ currentIndex i : Int, i ≠ currentIndex →
      (OptimizedCarousel.mediaPlayerProps (i == currentIndex)).paused = true ∧
      (OptimizedCarousel.mediaPlayerProps (i == currentIndex)).muted = true) := by
  refine ⟨?_, ?_, ?_⟩
  · intro N c m ready
    apply length_le_one_of_nodup_const ((List.nodup_range N).filter _)
    intro a ha b hb
    have hpa := (List.mem_filter.mp ha).2
    have hpb := (List.mem_filter.mp hb).2
    simp only [YouTubeShortsCarousel.itemPlaying, Bool.and_eq_true,
      playbackControl_playing, beq_iff_eq] at hpa hpb
    have hab : Int.ofNat a = Int.ofNat b := by rw [hpa.2, hpb.2]
    exact Int.ofNat.inj hab
  · intro c i m h
    have hb : (i == c) = false := by simp [h]
    rw [hb]
    exact ⟨rfl, rfl⟩
  · intro c i h
    have hb : (i == c) = false := by simp [h]
    rw [hb]
    exact ⟨rfl, rfl⟩

/-- C5 witness: with five items, currentIndex 1, all players ready and
sound on, exactly the playing-count bound and the deactivation of item 0
are obtained from the theorem. -/
theorem C5_single_playing_witness :
    ((List.range 5).filter
      (fun i => YouTubeShortsCarousel.itemPlaying 1 false (fun _ => true)
        (Int.ofNat i))).length ≤ 1 ∧
    (YouTubeShortsCarousel.playbackControl ((0 : Int) == 1) false).playing = false ∧
    (OptimizedCarousel.mediaPlayerProps ((0 : Int) == 1)).paused = true :=
  ⟨C5_single_playing.1 5 1 false (fun _ => true),
    (C5_single_playing.2.1 1 0 false (by decide)).1,
    (C5_single_playing.2.2 1 0 (by decide)).1⟩

/-! Claim C6: ordering of drag, settle and index commit. -/

/-- C6 counterexample: the claim states the dragging flag is cleared only
after the settle animation completes, but handleDragEnd clears it on entry:
starting from index 0 of a 5-item feed, after dragStart followed by
dragEnd(offset -200) the flag is already false while the index commit is
still pending (currentIndex still 0, target 1 not yet applied) — i.e.
before any settle completion. -/
theorem C6_drag_counterexample :
    (OptimizedCarousel.controllerStep 5
      (OptimizedCarousel.controllerStep 5 ⟨0, false, none⟩ .dragStart)
      (.dragEnd (-200) 0)).isDragging = false ∧
    (OptimizedCarousel.controllerStep 5
      (OptimizedCarousel.controllerStep 5 ⟨0, false, none⟩ .dragStart)
      (.dragEnd (-200) 0)).currentIndex = 0 ∧
    (OptimizedCarousel.controllerStep 5
      (OptimizedCarousel.controllerStep 5 ⟨0, false, none⟩ .dragStart)
      (.dragEnd (-200) 0)).pendingTarget = some 1 := by
  decide

/-- C6 (amended): currentIndex is mutated only by settle-completion events
— drag-start and drag-end never change it, so no index commit happens
between drag-start and the settle completion; on drag-end the controller
immediately clears the dragging flag and registers the target index
computed by getNextIndex on the settle animation, and only when the settle
completes is the index change committed. -/
theorem C6_drag_amended :
    (∀ (L : Int) (s : OptimizedCarousel.ControllerState)
        (e : OptimizedCarousel.DragEvent),
      e ≠ .settleComplete →
      (OptimizedCarousel.controllerStep L s e).currentIndex = s.currentIndex)
    ∧ (∀ (L : Int) (s : OptimizedCarousel.ControllerState) (o v : Int),
      (OptimizedCarousel.controllerStep L s (.dragEnd o v)).isDragging = false ∧
      (OptimizedCarousel.controllerStep L s (.dragEnd o v)).pendingTarget
        = some (OptimizedCarousel.getNextIndex s.currentIndex o v L))
    ∧ (∀ (L : Int) (s : OptimizedCarousel.ControllerState) (n : Int),
      s.pendingTarget = some n →
      (OptimizedCarousel.controllerStep L s .settleComplete).currentIndex = n ∧
      (OptimizedCarousel.controllerStep L s .settleComplete).pendingTarget = none) := by
  refine ⟨?_, ?_, ?_⟩
  · intro L s e he
    cases e with
    | dragStart => rfl
    | dragEnd o v => rfl
    | settleComplete => exact absurd rfl he
  · intro L s o v
    exact ⟨rfl, rfl⟩
  · intro L s n h
    simp [OptimizedCarousel.controllerStep, h]

/-- C6 witness: the amended theorem applied at concrete inputs — a
drag-start on the initial 5-item state leaves currentIndex at 0; the
drag-end effect on that state; and a settle completion with pending target
1 commits index 1. -/
theorem C6_drag_witness :
    (OptimizedCarousel.controllerStep 5 ⟨0, false, none⟩ .dragStart).currentIndex = 0 ∧
    ((OptimizedCarousel.controllerStep 5 ⟨0, true, none⟩
        (.dragEnd (-200) 0)).isDragging = false ∧
      (OptimizedCarousel.controllerStep 5 ⟨0, true, none⟩
        (.dragEnd (-200) 0)).pendingTarget
        = some (OptimizedCarousel.getNextIndex 0 (-200) 0 5)) ∧
    ((OptimizedCarousel.controllerStep 5 ⟨0, false, some 1⟩
        .settleComplete).currentIndex = 1 ∧
      (OptimizedCarousel.controllerStep 5 ⟨0, false, some 1⟩
        .settleComplete).pendingTarget = none) :=
  ⟨C6_drag_amended.1 5 ⟨0, false, none⟩ .dragStart (by decide),
    C6_drag_amended.2.1 5 ⟨0, true, none⟩ (-200) 0,
    C6_drag_amended.2.2 5 ⟨0, false, some 1⟩ 1 rfl⟩

/-! Claim C9: growth of the set of items rendered with a player. -/

/-- C9 counterexample: the claim states the set of items rendered with a
real player is monotonically non-decreasing over any sequence of index
changes, but when index commits outpace the (awaited, up-to-5s) preload
effects, an item rendered only through the window loses its player: from
the initial state of a 10-item feed, after three swipe-up commits with no
effect resolution item 1 is rendered (inside the window of index 3), yet
after a fourth commit it is not (outside the window of index 4 and never
recorded in loadedVideos). -/
theorem C9_render_counterexample :
    (1 : Int) ∈ OptimizedCarousel.renderedWithPlayer 10
      (OptimizedCarousel.runFeed 10
        [.commit (-200) 0, .commit (-200) 0, .commit (-200) 0]) ∧
    ¬ ((1 : Int) ∈ OptimizedCarousel.renderedWithPlayer 10
      (OptimizedCarousel.runFeed 10
        [.commit (-200) 0, .commit (-200) 0, .commit (-200) 0,
          .commit (-200) 0])) := by
  decide

/-- C9 (amended): an item is rendered with a real player exactly when it is
inside the virtualization window or recorded in loadedVideos; loadedVideos
only ever has indices added, so an item that has been recorded as preloaded
or ready stays rendered with a player through every later event, even after
leaving the window; and the number of instantiated players is not bounded
by 2*RENDER_WINDOW+1 = 5.  The full rendered set itself is not monotone:
an item rendered only through the window loses its player when the index
moves on before that item's preload is recorded. -/
theorem C9_render_amended :
    (∀ (N : Int) (s : OptimizedCarousel.FeedState) (i : Int),
      i ∈ OptimizedCarousel.renderedWithPlayer N s ↔
        (i ∈ OptimizedCarousel.visibleIndices s.currentIndex N ∨
          i ∈ s.loadedVideos))
    ∧ (∀ (N : Int) (s : OptimizedCarousel.FeedState)
        (e : OptimizedCarousel.FeedEvent),
      s.loadedVideos ⊆ (OptimizedCarousel.feedStep N s e).loadedVideos)
    ∧ (∀ (N : Int) (s : OptimizedCarousel.FeedState)
        (events : List OptimizedCarousel.FeedEvent) (i : Int),
      i ∈ s.loadedVideos →
      i ∈ OptimizedCarousel.renderedWithPlayer N
        (events.foldl (OptimizedCarousel.feedStep N) s))
    ∧ (∃ events : List OptimizedCarousel.FeedEvent,
      5 < (OptimizedCarousel.renderedWithPlayer 10
        (OptimizedCarousel.runFeed 10 events)).card) := by
  have hmono : ∀ (N : Int) (s : OptimizedCarousel.FeedState)
      (e : OptimizedCarousel.FeedEvent),
      s.loadedVideos ⊆ (OptimizedCarousel.feedStep N s e).loadedVideos := by
    intro N s e
    cases e with
    | commit o v => exact Finset.Subset.refl _
    | effectResolve captured =>
      exact subset_trans Finset.subset_union_left Finset.subset_union_left
    | videoReady i => exact Finset.subset_union_left
  refine ⟨?_, hmono, ?_, ?_⟩
  · intro N s i
    exact Finset.mem_union
  · intro N s events
    induction events generalizing s with
    | nil =>
      intro i hi
      exact Finset.mem_union_right _ hi
    | cons e rest ih =>
      intro i hi
      rw [List.foldl_cons]
      exact ih (OptimizedCarousel.feedStep N s e) i (hmono N s e hi)
  · exact ⟨[.commit (-200) 0, .effectResolve 1, .commit (-200) 0,
      .commit (-200) 0, .commit (-200) 0], by decide⟩

/-- C9 witness: the persistence part of the amended theorem applied at the
concrete input i = 0 ∈ loadedVideos of the initial state: after four
swipe-up commits item 0 is still rendered with a player although it is far
outside the window of index 4. -/
theorem C9_render_witness :
    (0 : Int) ∈ OptimizedCarousel.renderedWithPlayer 10
      ([OptimizedCarousel.FeedEvent.commit (-200) 0, .commit (-200) 0,
        .commit (-200) 0, .commit (-200) 0].foldl
        (OptimizedCarousel.feedStep 10) OptimizedCarousel.initFeed) :=
  C9_render_amended.2.2.1 10 OptimizedCarousel.initFeed
    [.commit (-200) 0, .commit (-200) 0, .commit (-200) 0, .commit (-200) 0] 0
    (by decide)

/-! Helper lemmas about the media-identifier resolver. -/

section ResolverLemmas

open YouTubeShortsCarousel

/-- A matched literal's characters all occur in the scanned suffix. -/
theorem startsWith_mem : ∀ (p s : List Char), startsWith p s = true → ∀ c ∈ p, c ∈ s := by
  intro p
  induction p with
  | nil => intro s _ c hc; cases hc
  | cons x ps ih =>
    intro s hst c hc
    cases s with
    | nil => cases hst
    | cons y t =>
      simp only [startsWith, Bool.and_eq_true, beq_iff_eq] at hst
      obtain ⟨rfl, hrest⟩ := hst
      rcases List.mem_cons.mp hc with rfl | hmem
      · exact List.mem_cons_self _ _
      · exact List.mem_cons_of_mem _ (ih t hrest c hmem)

/-- A regex whose literal contains a non-id character never matches inside
a string made only of id characters. -/
theorem scan_none_of_idChars (pre : List Char) (alts : List (List Char))
    (bad : Char) (hbadmem : bad ∈ pre) (hbad : isIdChar bad = false) :
    ∀ s : List Char, s.all isIdChar = true → scanRegex pre alts s = none := by
  intro s
  induction s with
  | nil => intro _; rfl
  | cons c rest ih =>
    intro hall
    rw [List.all_cons, Bool.and_eq_true] at hall
    have hst : startsWith pre (c :: rest) = false := by
      cases hx : startsWith pre (c :: rest) with
      | false => rfl
      | true =>
        have hmem2 := startsWith_mem pre (c :: rest) hx bad hbadmem
        have hgood : isIdChar bad = true := by
          have hall2 := List.all_eq_true.mp
            (by rw [List.all_cons, Bool.and_eq_true]; exact hall)
          exact hall2 bad hmem2
        rw [hgood] at hbad
        cases hbad
    simp only [scanRegex, hst, Bool.false_eq_true, if_false]
    exact ih hall.2

/-- The capture succeeds on exactly an 11-character id suffix. -/
theorem takeId11_exact (id : List Char) (h11 : id.length = 11)
    (hall : id.all isIdChar = true) : takeId11 id = some id := by
  have htake : id.take 11 = id := by
    rw [← h11]
    exact List.take_length id
  simp [takeId11, htake, h11, hall]

/-- The characters of the youtu.be short-link literal. -/
theorem short_data :
    "https://youtu.be/".data
      = ['h','t','t','p','s',':','/','/','y','o','u','t','u','.','b','e','/'] := by
  decide

/-- The characters of the canonical watch-URL literal. -/
theorem canonical_data :
    "https://www.youtube.com/watch?v=".data
      = ['h','t','t','p','s',':','/','/','w','w','w','.','y','o','u','t','u','b','e',
         '.','c','o','m','/','w','a','t','c','h','?','v','='] := by
  decide

/-- A string with at least one character is not the empty string. -/
theorem mk_cons_ne_empty (c : Char) (l : List Char) : ¬ (String.mk (c :: l) = "") := by
  intro h
  have hd : c :: l = "".data := congrArg String.data h
  have h0 : "".data = [] := by decide
  rw [h0] at hd
  cases hd

/-- The short-link regex finds the id at position 8 of a short-link URL. -/
theorem scan_short_hit (id : List Char) (h11 : id.length = 11)
    (hall : id.all isIdChar = true) :
    scanRegex ("youtu.be/".data) [[]] ("https://youtu.be/".data ++ id) = some id := by
  rw [short_data]
  have hpat : "youtu.be/".data = ['y','o','u','t','u','.','b','e','/'] := by decide
  rw [hpat]
  simp only [List.cons_append, List.nil_append]
  simp [scanRegex, startsWith, matchAlts, takeId11_exact id h11 hall]

/-- The short-link regex finds nothing in a canonical watch URL: every
position of the literal part mismatches, and the id suffix has no dot. -/
theorem scan_short_miss_canonical (id : List Char)
    (hall : id.all isIdChar = true) :
    scanRegex ("youtu.be/".data) [[]] ("https://www.youtube.com/watch?v=".data ++ id)
      = none := by
  have hpat : "youtu.be/".data = ['y','o','u','t','u','.','b','e','/'] := by decide
  have htail : scanRegex ("youtu.be/".data) [[]] id = none :=
    scan_none_of_idChars _ _ '.' (by rw [hpat]; decide) (by decide) id hall
  rw [hpat] at htail ⊢
  rw [canonical_data]
  simp only [List.cons_append, List.nil_append]
  simp [scanRegex, startsWith, htail]

/-- The canonical regex finds the id at position 12 of a watch URL via its
first alternative. -/
theorem scan_long_hit (id : List Char) (h11 : id.length = 11)
    (hall : id.all isIdChar = true) :
    scanRegex ("youtube.com/".data)
      ["watch?v=".data, "shorts/".data, "embed/".data]
      ("https://www.youtube.com/watch?v=".data ++ id) = some id := by
  have hpat : "youtube.com/".data
      = ['y','o','u','t','u','b','e','.','c','o','m','/'] := by decide
  have halt : "watch?v=".data = ['w','a','t','c','h','?','v','='] := by decide
  rw [canonical_data, hpat, halt]
  simp only [List.cons_append, List.nil_append]
  simp [scanRegex, startsWith, matchAlts, takeId11_exact id h11 hall]

/-- Resolution of the short-link form of an arbitrary 11-character id. -/
theorem extract_short_form (id : List Char) (h11 : id.length = 11)
    (hall : id.all isIdChar = true) :
    extractYouTubeId (String.mk ("https://youtu.be/".data ++ id))
      = some (String.mk id) := by
  have hne : ¬ (String.mk ("https://youtu.be/".data ++ id) = "") := by
    rw [short_data]
    exact mk_cons_ne_empty _ _
  unfold extractYouTubeId
  rw [if_neg hne]
  have hdata : (String.mk ("https://youtu.be/".data ++ id)).data
      = "https://youtu.be/".data ++ id := rfl
  rw [hdata, scan_short_hit id h11 hall]

/-- Resolution of the canonical watch-URL form of an arbitrary
11-character id. -/
theorem extract_canonical_form (id : List Char) (h11 : id.length = 11)
    (hall : id.all isIdChar = true) :
    extractYouTubeId (String.mk ("https://www.youtube.com/watch?v=".data ++ id))
      = some (String.mk id) := by
  have hne : ¬ (String.mk ("https://www.youtube.com/watch?v=".data ++ id) = "") := by
    rw [canonical_data]
    exact mk_cons_ne_empty _ _
  unfold extractYouTubeId
  rw [if_neg hne]
  have hdata : (String.mk ("https://www.youtube.com/watch?v=".data ++ id)).data
      = "https://www.youtube.com/watch?v=".data ++ id := rfl
  rw [hdata, scan_short_miss_canonical id hall, scan_long_hit id h11 hall]

/-- Resolution of a bare 11-character token to itself. -/
theorem extract_bare_form (id : List Char) (h11 : id.length = 11)
    (hall : id.all isIdChar = true) :
    extractYouTubeId (String.mk id) = some (String.mk id) := by
  have hne : ¬ (String.mk id = "") := by
    cases id with
    | nil => cases h11
    | cons c l => exact mk_cons_ne_empty c l
  have hshort : scanRegex ("youtu.be/".data) [[]] id = none :=
    scan_none_of_idChars _ _ '.' (by decide) (by decide) id hall
  have hlong : scanRegex ("youtube.com/".data)
      ["watch?v=".data, "shorts/".data, "embed/".data] id = none :=
    scan_none_of_idChars _ _ '.' (by decide) (by decide) id hall
  unfold extractYouTubeId
  rw [if_neg hne]
  have hdata : (String.mk id).data = id := rfl
  rw [hdata, hshort, hlong, h11]
  simp [hall]

/-- videoIds is exactly the filterMap of the resolver over the raw feed. -/
theorem videoIds_filterMap (items : List String) :
    videoIds items = items.filterMap extractYouTubeId := by
  induction items with
  | nil => rfl
  | cons x rest ih =>
    simp only [videoIds, List.map_cons, List.filterMap_cons] at ih ⊢
    cases extractYouTubeId x <;> simp [ih]

end ResolverLemmas

/-! Claim C8: the media-identifier resolver. -/

/-- C8 counterexample: on the claim's own raw feed
["https://short/abc12345678", "abc12345678", "not-a-video"] the code yields
two identifiers that are NOT equal: "https://short/abc12345678" matches
none of the recognized forms (its host is not youtu.be) and is dropped,
while "not-a-video" happens to be a valid bare 11-character token
(letters and hyphens) and resolves to itself. -/
theorem C8_resolveAll_counterexample :
    YouTubeShortsCarousel.videoIds
      ["https://short/abc12345678", "abc12345678", "not-a-video"]
      = ["abc12345678", "not-a-video"] ∧
    ¬ (("abc12345678" : String) = "not-a-video") := by
  decide

/-- C8 (amended): resolveAll maps each raw input through the resolver,
drops every input that resolves to null, and preserves the relative order
of the survivors (it is the filterMap of the resolver, hence compositional
over concatenation with computable singleton behaviour); the youtu.be
short-link form, the canonical watch-URL form and the bare 11-character
token form of any same id resolve to the same identifier; the resolver
returns null (none) rather than throwing for unrecognized input such as
"not a video"; and for the raw feed
["https://youtu.be/abc12345678", "abc12345678", "not a video"] — the
original scenario with a genuine short-link host and a genuinely
unresolvable third entry — resolveAll yields exactly two identifiers, both
equal, in original relative order. -/
theorem C8_resolveAll_amended :
    (∀ items : List String,
      YouTubeShortsCarousel.videoIds items
        = items.filterMap YouTubeShortsCarousel.extractYouTubeId)
    ∧ (∀ xs ys : List String,
      YouTubeShortsCarousel.videoIds (xs ++ ys)
        = YouTubeShortsCarousel.videoIds xs ++ YouTubeShortsCarousel.videoIds ys)
    ∧ (∀ raw : String, YouTubeShortsCarousel.extractYouTubeId raw = none →
      YouTubeShortsCarousel.videoIds [raw] = [])
    ∧ (∀ raw v : String, YouTubeShortsCarousel.extractYouTubeId raw = some v →
      YouTubeShortsCarousel.videoIds [raw] = [v])
    ∧ (∀ id : List Char, id.length = 11 →
        id.all YouTubeShortsCarousel.isIdChar = true →
      YouTubeShortsCarousel.extractYouTubeId
          (String.mk ("https://youtu.be/".data ++ id)) = some (String.mk id) ∧
      YouTubeShortsCarousel.extractYouTubeId
          (String.mk ("https://www.youtube.com/watch?v=".data ++ id))
        = some (String.mk id) ∧
      YouTubeShortsCarousel.extractYouTubeId (String.mk id) = some (String.mk id))
    ∧ YouTubeShortsCarousel.extractYouTubeId "not a video" = none
    ∧ YouTubeShortsCarousel.videoIds
        ["https://youtu.be/abc12345678", "abc12345678", "not a video"]
      = ["abc12345678", "abc12345678"] := by
  refine ⟨videoIds_filterMap, ?_, ?_, ?_, ?_, by decide, by decide⟩
  · intro xs ys
    simp [YouTubeShortsCarousel.videoIds, List.filterMap_append]
  · intro raw h
    simp [YouTubeShortsCarousel.videoIds, h]
  · intro raw v h
    simp [YouTubeShortsCarousel.videoIds, h]
  · intro id h11 hall
    exact ⟨extract_short_form id h11 hall, extract_canonical_form id h11 hall,
      extract_bare_form id h11 hall⟩

/-- C8 witness: the amended theorem applied at the concrete id
"abc12345678": its short-link, canonical and bare forms all resolve to the
same identifier, and a raw entry that resolves to it survives alone. -/
theorem C8_resolveAll_witness :
    (YouTubeShortsCarousel.extractYouTubeId
        (String.mk ("https://youtu.be/".data ++ "abc12345678".data))
      = some (String.mk "abc12345678".data) ∧
    YouTubeShortsCarousel.extractYouTubeId
        (String.mk ("https://www.youtube.com/watch?v=".data ++ "abc12345678".data))
      = some (String.mk "abc12345678".data) ∧
    YouTubeShortsCarousel.extractYouTubeId (String.mk "abc12345678".data)
      = some (String.mk "abc12345678".data)) ∧
    YouTubeShortsCarousel.videoIds ["not a video"] = [] :=
  ⟨C8_resolveAll_amended.2.2.2.2.1 "abc12345678".data (by decide) (by decide),
    C8_resolveAll_amended.2.2.1 "not a video" (by decide)⟩

end VideoPlayerSpec
